import Mathlib

/-!
Verification of the AutoGluon tabular text feature generators
(`autogluon/utils/tabular/features/generators/text_ngram.py` and
`text_special.py`) against their natural-language specification.

The Python code is shallowly embedded: pandas DataFrames become explicit
row-index / column lists, the sklearn vectorizer (an external collaborator)
is modelled as a bag-of-words over whitespace tokens, psutil memory
readings and transform-time out-of-memory events are supplied by an
explicit environment value per retry iteration, and Python exceptions
become an `Except` error type.  In-place mutation of `self` survives an
exception in Python, so every embedded operation returns the (possibly
mutated) generator state alongside its `Except` result.
-/

set_option autoImplicit false

namespace AutogluonText

/-- Python exception classes relevant to these two modules.  All of them
derive from `Exception`, so all are caught by the retry loop's
`except Exception` clause.  `oracleExhausted` is an artefact of the finite
failure oracle used to drive the retry loop; it is never produced when at
least 3 oracle entries are supplied. -/
inductive PyErr where
  | valueError
  | indexError
  | memoryError
  | oracleExhausted
deriving Repr, DecidableEq

instance {ε α : Type} [DecidableEq ε] [DecidableEq α] : DecidableEq (Except ε α)
  | .error e1, .error e2 => decidable_of_iff (e1 = e2) (by simp)
  | .error _, .ok _ => isFalse (by simp)
  | .ok _, .error _ => isFalse (by simp)
  | .ok a, .ok b => decidable_of_iff (a = b) (by simp)

/-- Whether an `Except` result is a success. -/
def exceptIsOk {α : Type} : Except PyErr α → Bool
  | .ok _ => true
  | .error _ => false

/-- Accumulator-based splitting of a character list into maximal
non-whitespace runs (`cur` holds the current run reversed). -/
def tokensAux : List Char → List Char → List String
  | cur, [] => if cur.isEmpty then [] else [String.mk cur.reverse]
  | cur, c :: rest =>
    if c.isWhitespace then
      if cur.isEmpty then tokensAux [] rest
      else String.mk cur.reverse :: tokensAux [] rest
    else tokensAux (c :: cur) rest

/-- Whitespace tokenization (maximal non-whitespace runs, no empty
tokens), modelling both Python's `str.split()` (used by `word_count`) and
the tokenizer of the external sklearn vectorizer (the real default,
`vectorizer_auto_ml_default`, lives in `..vectorizers` outside src/ and
its exact n-gram policy is external per the spec). -/
def tokens (s : String) : List String := tokensAux [] s.data

/-- Input pandas DataFrame: a row index (labels, in row order) and named
columns of string cells.  Only the designated text columns matter to these
generators. -/
structure DF where
  rowIndex : List String
  cols : List (String × List String)
deriving Repr, DecidableEq

/-- Number of rows, Python `len(X)`. -/
def DF.nRows (X : DF) : Nat := X.rowIndex.length

/-- Column lookup, `X[name]`. -/
def DF.col (X : DF) (name : String) : List String :=
  (((X.cols.find? (fun p => p.1 == name)).map (fun p => p.2)).getD [])

/-- `X[feats].values`: one row per index position, each row listing the
cells of the requested columns in order. -/
def DF.rowsOf (X : DF) (feats : List String) : List (List String) :=
  (List.range X.nRows).map (fun i => feats.map (fun f => (X.col f).getD i ""))

/-- Numeric output DataFrame: row index plus named integer columns. -/
structure NumDF where
  rowIndex : List String
  cols : List (String × List Int)
deriving Repr, DecidableEq

/-- numpy `astype(np.int32)`: wrap-around cast of a count into a signed
32-bit value. -/
def toInt32 (n : Nat) : Int := ((n : Int) + 2 ^ 31) % 2 ^ 32 - 2 ^ 31

/-- A fitted sklearn vectorizer, reduced to what the generator observes:
its ordered vocabulary (`vocabulary_`; `len(vectorizer.vocabulary_)` is the
vocabulary size and `get_feature_names()` lists the terms). -/
structure Vectorizer where
  vocabulary_ : List String
deriving Repr, DecidableEq

/-- `vectorizer.get_feature_names()`. -/
def Vectorizer.get_feature_names (v : Vectorizer) : List String := v.vocabulary_

/-- Number of occurrences of a vocabulary term in one document. -/
def tokenCount (doc term : String) : Nat :=
  (tokens doc).countP (fun t => t == term)

/-- `vectorizer.transform(text_data)`: one row per document, one column per
vocabulary term, cells holding occurrence counts.  The matrix width equals
the vocabulary size (`transform_matrix.shape[1]`). -/
def Vectorizer.transform (v : Vectorizer) (docs : List String) : List (List Nat) :=
  docs.map (fun d => v.vocabulary_.map (fun t => tokenCount d t))

/-- Embeds `_train_vectorizer` (text_ngram.py lines 162-168) together with
the external sklearn fit it wraps: fitting collects the distinct tokens of
the documents as the vocabulary and raises `ValueError` exactly when that
vocabulary is empty (sklearn's "empty vocabulary" error).  Clearing
`stop_words_` has no observable effect in this model. -/
def train_vectorizer (text_list : List String) : Except PyErr Vectorizer :=
  let vocab := ((text_list.map tokens).flatten).dedup
  if vocab.isEmpty then .error .valueError else .ok ⟨vocab⟩

/-- Modelled from the spec: `get_ngram_freq` (imported from
`..vectorizers`, which is not under src/) reports each vocabulary term's
frequency; per the spec's Vectorizer contract this is the term's column sum
in the transform matrix. -/
def get_ngram_freq (v : Vectorizer) (tm : List (List Nat)) : List (String × Nat) :=
  v.vocabulary_.enum.map (fun p => (p.2, (tm.map (fun row => row.getD p.1 0)).sum))

/-- Stable insertion into a frequency-descending list: the new pair goes
before the first strictly-smaller frequency, hence after all earlier pairs
of equal frequency. -/
def insertByFreq (p : String × Nat) : List (String × Nat) → List (String × Nat)
  | [] => [p]
  | q :: rest => if q.2 ≤ p.2 then p :: q :: rest else q :: insertByFreq p rest

/-- Stable sort by descending frequency (ties keep original term order). -/
def sortByFreqDesc : List (String × Nat) → List (String × Nat)
  | [] => []
  | p :: rest => insertByFreq p (sortByFreqDesc rest)

/-- Modelled from the spec: `downscale_vectorizer` (imported from
`..vectorizers`, which is not under src/) destructively shrinks the
vocabulary to the top `vocab_size` terms ranked by descending frequency,
ties broken deterministically by original term order. -/
def downscale_vectorizer (_v : Vectorizer) (ngram_freq : List (String × Nat))
    (vocab_size : Nat) : Vectorizer :=
  ⟨((sortByFreqDesc ngram_freq).take vocab_size).map (fun p => p.1)⟩

/-- The mutable state of a `TextNgramFeatureGenerator` instance observed by
these claims: `self.vectorizers`, `self.features_in` and the fitted flag
`self._is_fit` maintained by the abstract base class (false throughout a
`fit_transform` call, true afterwards). -/
structure TextNgramState where
  vectorizers : List Vectorizer
  features_in : List String
  is_fit : Bool
deriving Repr, DecidableEq

/-- Environment of one retry-loop iteration: the psutil readings taken
during that attempt (`mem_rss` = process resident bytes, `mem_avail` =
available system bytes, assumed positive as Python would otherwise raise
`ZeroDivisionError`) and whether each of the at most two
`vectorizer.transform` calls of the attempt raises a `MemoryError`
(`oomFirst` for the transform at line 124, `oomSecond` for the
re-transform at line 147). -/
structure AttemptEnv where
  oomFirst : Bool
  oomSecond : Bool
  mem_rss : Nat
  mem_avail : Nat
deriving Repr, DecidableEq

/-- Line 127: `predicted_ngrams_memory_usage_bytes = len(X) * 8 *
(transform_matrix.shape[1] + 1) + 80`, where `shape1` is the matrix width,
i.e. the current vocabulary size. -/
def predicted_ngrams_memory_usage_bytes (X : DF) (shape1 : Nat) : Nat :=
  X.nRows * 8 * (shape1 + 1) + 80

/-- Lines 128-131: `predicted_percentage = (mem_rss +
predicted_ngrams_memory_usage_bytes) / mem_avail` from the attempt's psutil
readings. -/
def predicted_percentage (env : AttemptEnv) (X : DF) (shape1 : Nat) : ℚ :=
  ((env.mem_rss + predicted_ngrams_memory_usage_bytes X shape1 : Nat) : ℚ) /
    ((env.mem_avail : Nat) : ℚ)

/-- The `__nlp__` document list (lines 63 and 121): the per-row
`'. '.join` of the cells of the current `features_in` columns. -/
def nlpDocs (X : DF) (features_in : List String) : List String :=
  (X.rowsOf features_in).map (fun row => String.intercalate ". " row)

/-- Lines 132-135: choose the downsample ratio.  When none has been chosen
yet and the predicted usage percentage exceeds the threshold, set it to
`max_memory_ratio / predicted_percentage`; a ratio already chosen is kept
as is (it is never recomputed). -/
def select_downsample_ratio (max_memory_ratio pct : ℚ) : Option ℚ → Option ℚ
  | none => if max_memory_ratio < pct then some (max_memory_ratio / pct) else none
  | some r => some r

/-- Model of `DataFrame(index=X)` at text_ngram.py line 112: the `index`
keyword receives the input DataFrame `X` itself (not `X.index`).  pandas
builds the index with `Index(X)`, which rejects two-dimensional data, so
the call raises `ValueError` instead of producing an empty frame over
`X`'s row index (contrast text_special.py line 45, which passes
`X.index`). -/
def pd_DataFrame_index_of_df (_X : DF) : Except PyErr NumDF := .error .valueError

/-- Lines 149-153: build the per-feature output frame.  `pd.DataFrame` of a
bare array gets the default RangeIndex 0..n-1; one column per vocabulary
term named by the group name, a dot and the term; then the `._total_`
column holding each row's count of strictly positive term cells, cast to
int32. -/
def buildNgramDF (nlp_feature : String) (names : List String)
    (tm : List (List Nat)) : NumDF :=
  { rowIndex := (List.range tm.length).map (fun i => toString i)
    cols :=
      (names.enum.map (fun p =>
        (nlp_feature ++ "." ++ p.2,
         tm.map (fun row => ((row.getD p.1 0 : Nat) : Int))))) ++
      [(nlp_feature ++ "._total_",
        tm.map (fun row => toInt32 (row.countP (fun c => decide (0 < c)))))] }

/-- Lines 157-158: `pd.concat(axis=1)` of the per-feature frames (they all
share the default RangeIndex here).  When the list is empty the Python code
returns the empty list itself; that case is unreachable from the caller,
which always passes the single synthetic feature, and is modelled as an
empty frame. -/
def pd_concat_cols : List NumDF → NumDF
  | [] => { rowIndex := [], cols := [] }
  | d :: ds => { rowIndex := d.rowIndex, cols := d.cols ++ (ds.map NumDF.cols).flatten }

/-- Embeds the body of `_generate_text_ngrams` (text_ngram.py lines
115-158): the `for i, nlp_feature in enumerate(features_nlp_current)` loop,
threading the generator state (the vectorizer list is mutated in place by
`downscale_vectorizer`), the local `downsample_ratio` variable and the
accumulated per-feature frames.  Exceptions abort the loop but keep the
mutations made so far, as in Python. -/
def ngram_feature_loop (max_memory_ratio : ℚ) (X : DF) (env : AttemptEnv) :
    TextNgramState → Nat → List String → Option ℚ → List NumDF →
    TextNgramState × Except PyErr (List NumDF)
  | st, _, [], _, acc => (st, .ok acc.reverse)
  | st, i, nlp_feature :: rest, downsample_ratio, acc =>
    match st.vectorizers.get? i with
    | none => (st, .error .indexError)
    | some vectorizer_fit =>
      let text_data :=
        if nlp_feature == "__nlp__" then nlpDocs X st.features_in
        else X.col nlp_feature
      if env.oomFirst then (st, .error .memoryError) else
      let transform_matrix := vectorizer_fit.transform text_data
      if st.is_fit then
        let df := buildNgramDF nlp_feature vectorizer_fit.get_feature_names transform_matrix
        ngram_feature_loop max_memory_ratio X env st (i + 1) rest downsample_ratio (df :: acc)
      else
        let pct := predicted_percentage env X vectorizer_fit.vocabulary_.length
        match select_downsample_ratio max_memory_ratio pct downsample_ratio with
        | none =>
          let df := buildNgramDF nlp_feature vectorizer_fit.get_feature_names transform_matrix
          ngram_feature_loop max_memory_ratio X env st (i + 1) rest none (df :: acc)
        | some r =>
          if 1 ≤ r ∨ r ≤ 0 then (st, .error .valueError)
          else
            let vocab_size := vectorizer_fit.vocabulary_.length
            let downsampled_vocab_size := Nat.floor ((vocab_size : ℚ) * r)
            let ngram_freq := get_ngram_freq vectorizer_fit transform_matrix
            let vfit2 := downscale_vectorizer vectorizer_fit ngram_freq downsampled_vocab_size
            let st2 := { st with vectorizers := st.vectorizers.set i vfit2 }
            if env.oomSecond then (st2, .error .memoryError) else
            let tm2 := vfit2.transform text_data
            let df := buildNgramDF nlp_feature vfit2.get_feature_names tm2
            ngram_feature_loop max_memory_ratio X env st2 (i + 1) rest (some r) (df :: acc)

/-- Embeds `_generate_text_ngrams` (text_ngram.py lines 115-160): run the
per-feature loop and concatenate the produced frames column-wise. -/
def generate_text_ngrams (max_memory_ratio : ℚ) (X : DF) (st : TextNgramState)
    (env : AttemptEnv) (features_nlp_current : List String)
    (downsample_ratio : Option ℚ) : TextNgramState × Except PyErr NumDF :=
  match ngram_feature_loop max_memory_ratio X env st 0 features_nlp_current downsample_ratio [] with
  | (st2, .ok dfs) => (st2, .ok (pd_concat_cols dfs))
  | (st2, .error e) => (st2, .error e)

/-- Lines 91-99: the `for`–`else` over `self.vectorizers` in the exception
handler.  `skip_nlp` becomes true when some already-fitted vectorizer has
vocabulary size at most 50 (the loop breaks), and otherwise — the `else`
of the `for`, reached only when no vectorizer broke out — when the failure
counter has reached 3. -/
def skip_nlp_decision (vectorizers : List Vectorizer) (nlp_failure_count : Nat) : Bool :=
  if vectorizers.any (fun v => decide (v.vocabulary_.length ≤ 50)) then true
  else decide (3 ≤ nlp_failure_count)

/-- Outcome of the `while keep_trying_nlp` loop (lines 79-110), with the
generator state as left behind by the loop: success with the produced
frame, a re-raised exception (post-fit only), abandonment (`skip_nlp`,
leaving `X_text_ngram = None`), or exhaustion of the finite failure
oracle (never reached when at least 3 entries are supplied). -/
inductive LoopOut where
  | ok (st : TextNgramState) (df : NumDF)
  | raised (st : TextNgramState) (e : PyErr)
  | skipped (st : TextNgramState)
  | fuel (st : TextNgramState)
deriving Repr, DecidableEq

/-- Whether the loop ran out of oracle entries. -/
def LoopOut.isFuel : LoopOut → Bool
  | .fuel _ => true
  | _ => false

/-- Embeds the `while keep_trying_nlp` retry loop of
`_generate_features_text_ngram` (text_ngram.py lines 76-110), starting from
`downsample_ratio = None` and `nlp_failure_count = 0`.  One `AttemptEnv` is
consumed per iteration: memory is re-queried on every retry.  On any
exception the counter is incremented; post-fit the exception is re-raised;
otherwise the `skip_nlp` decision either abandons (clearing
`self.vectorizers` and `self.features_in`) or retries with the fixed
`downsample_ratio = 0.25` and the previously fitted (never re-fitted,
possibly already shrunk) vectorizers. -/
def nlp_retry_loop (max_memory_ratio : ℚ) (X : DF) :
    TextNgramState → Option ℚ → Nat → List AttemptEnv → LoopOut
  | st, _, _, [] => .fuel st
  | st, downsample_ratio, nlp_failure_count, env :: rest =>
    match generate_text_ngrams max_memory_ratio X st env ["__nlp__"] downsample_ratio with
    | (st2, .ok df) => .ok st2 df
    | (st2, .error e) =>
      let count2 := nlp_failure_count + 1
      if st2.is_fit then .raised st2 e
      else if skip_nlp_decision st2.vectorizers count2 then
        .skipped { st2 with vectorizers := [], features_in := [] }
      else nlp_retry_loop max_memory_ratio X st2 (some (1 / 4)) count2 rest

/-- Embeds the fitting section of `_generate_features_text_ngram` (lines
57-74): for each synthetic nlp feature, build the deduplicated document
list (for `__nlp__`: the per-row `'. '.join` of the current `features_in`
columns, deduplicated through `set`; Python's set order is arbitrary and is
modelled by `List.dedup`), fit a fresh copy of the default vectorizer and
append it; a `ValueError` instead marks the whole `features_in` list for
removal.  Afterwards the marked features are filtered out of
`features_in`. -/
def fit_vectorizers_loop (X : DF) :
    TextNgramState → List String → List String → TextNgramState × List String
  | st, features_nlp_to_remove, [] => (st, features_nlp_to_remove)
  | st, features_nlp_to_remove, nlp_feature :: rest =>
    let text_list :=
      if nlp_feature == "__nlp__" then (nlpDocs X st.features_in).dedup
      else (X.col nlp_feature).dedup
    match train_vectorizer text_list with
    | .ok vectorizer_fit =>
      fit_vectorizers_loop X
        { st with vectorizers := st.vectorizers ++ [vectorizer_fit] }
        features_nlp_to_remove rest
    | .error _ => fit_vectorizers_loop X st st.features_in rest

/-- Lines 57-74 as a whole: run the fitting loop, then
`self.features_in = [f for f in self.features_in if f not in
features_nlp_to_remove]`. -/
def fit_vectorizers (X : DF) (st : TextNgramState)
    (features_nlp_current : List String) : TextNgramState :=
  let p := fit_vectorizers_loop X st [] features_nlp_current
  { p.1 with features_in := p.1.features_in.filter (fun f => ! p.2.contains f) }

/-- Embeds `_generate_features_text_ngram` (text_ngram.py lines 51-113):
when `features_in` is empty the whole body is skipped and `X_text_ngram`
stays `None`; otherwise the vectorizers are fitted (fit path only) and the
retry loop runs.  A `None` result (empty `features_in`, or abandonment)
reaches line 112's `DataFrame(index=X)`, which raises `ValueError`. -/
def generate_features_text_ngram (max_memory_ratio : ℚ) (X : DF)
    (st : TextNgramState) (envs : List AttemptEnv) :
    TextNgramState × Except PyErr NumDF :=
  if st.features_in.isEmpty then (st, pd_DataFrame_index_of_df X)
  else
    let st1 := if st.is_fit then st else fit_vectorizers X st ["__nlp__"]
    match nlp_retry_loop max_memory_ratio X st1 none 0 envs with
    | .ok st2 df => (st2, .ok df)
    | .raised st2 e => (st2, .error e)
    | .skipped st2 => (st2, pd_DataFrame_index_of_df X)
    | .fuel st2 => (st2, .error .oracleExhausted)

/-- Embeds `_fit_transform` (text_ngram.py lines 37-42): `_transform`
(which delegates to `_generate_features_text_ngram`) followed by the
type-group mapping `dict(text_ngram=list(X_out.columns))`.  The public
`fit_transform` wrapper (abstract base class, outside src/) calls this
while the generator is still unfitted, so `st.is_fit` is false here. -/
def fit_transform_text_ngram (max_memory_ratio : ℚ) (X : DF)
    (st : TextNgramState) (envs : List AttemptEnv) :
    TextNgramState × Except PyErr (NumDF × List (String × List String)) :=
  match generate_features_text_ngram max_memory_ratio X st envs with
  | (st2, .ok df) => (st2, .ok (df, [("text_ngram", df.cols.map (fun c => c.1))]))
  | (st2, .error e) => (st2, .error e)

/-! ### TextSpecialFeatureGenerator (text_special.py) -/

/-- Python `string.replace(' ', '')`: drop every space character (only the
literal space, not other whitespace). -/
def removeSpaces (s : String) : String :=
  String.mk (s.data.filter (fun c => ! (c == ' ')))

/-- text_special.py lines 64-66: `len(string.split())`. -/
def word_count (s : String) : Nat := (tokens s).length

/-- Lines 68-70: `len(string)`. -/
def char_count (s : String) : Nat := s.length

/-- Lines 72-78: drop spaces; 0 for the empty result; otherwise the length
of `re.sub` removing every `[\w]+` run (i.e. the number of non-word
characters) over the non-space length.  Word characters are modelled as
ASCII alphanumerics and underscore. -/
def isWordChar (c : Char) : Bool := c.isAlphanum || c == '_'

/-- `special_ratio` (lines 72-78). -/
def special_ratio (s : String) : ℚ :=
  let t := removeSpaces s
  if t.isEmpty then 0
  else ((t.data.countP (fun c => ! isWordChar c) : Nat) : ℚ) / ((t.length : Nat) : ℚ)

/-- `digit_ratio` (lines 80-85). -/
def digit_ratio (s : String) : ℚ :=
  let t := removeSpaces s
  if t.isEmpty then 0
  else ((t.data.countP Char.isDigit : Nat) : ℚ) / ((t.length : Nat) : ℚ)

/-- `lower_ratio` (lines 87-92). -/
def lower_ratio (s : String) : ℚ :=
  let t := removeSpaces s
  if t.isEmpty then 0
  else ((t.data.countP Char.isLower : Nat) : ℚ) / ((t.length : Nat) : ℚ)

/-- `capital_ratio` (lines 94-99). -/
def capital_ratio (s : String) : ℚ :=
  let t := removeSpaces s
  if t.isEmpty then 0
  else ((t.data.countP Char.isUpper : Nat) : ℚ) / ((t.length : Nat) : ℚ)

/-- `symbol_in_string_count` (lines 101-105): 0 for the empty string,
otherwise the number of occurrences of the symbol character. -/
def symbol_in_string_count (s : String) (character : Char) : Nat :=
  if s.isEmpty then 0 else s.data.countP (fun c => c == character)

/-- Embeds `_generate_text_special` (text_special.py lines 48-62) for one
input text column: the produced columns in source order (the frame itself
carries `index=X.index`, which no claim touches).  Each symbol contributes
a count column and a ratio column `symbol_count / char_count`, whose
0/0 `NaN` is filled with 0 (`fillna(0)`); a positive count with a zero
`char_count` is impossible since an empty string has no symbols. -/
def generate_text_special (symbols : List Char) (values : List String)
    (feature : String) : List (String × List ℚ) :=
  [ (feature ++ ".char_count", values.map (fun v => (char_count v : ℚ))),
    (feature ++ ".word_count", values.map (fun v => (word_count v : ℚ))),
    (feature ++ ".capital_ratio", values.map capital_ratio),
    (feature ++ ".lower_ratio", values.map lower_ratio),
    (feature ++ ".digit_ratio", values.map digit_ratio),
    (feature ++ ".special_ratio", values.map special_ratio) ]
  ++ (symbols.map (fun symbol =>
      [ (feature ++ ".symbol_count." ++ symbol.toString,
         values.map (fun v => (symbol_in_string_count v symbol : ℚ))),
        (feature ++ ".symbol_ratio." ++ symbol.toString,
         values.map (fun v =>
           if (char_count v : ℚ) = 0 then 0
           else (symbol_in_string_count v symbol : ℚ) / (char_count v : ℚ))) ])).flatten

/-- Column lookup in a rational-valued frame. -/
def colLookup (cols : List (String × List ℚ)) (name : String) : List ℚ :=
  (((cols.find? (fun p => p.1 == name)).map (fun p => p.2)).getD [])

/-! ### Spec-side Memory Estimator (for the refinement claim C5) -/

/-- Modelled from the spec, section 4.2: the Memory Estimator's
`predict_dense_matrix_bytes(row_count, column_count)`. -/
def predict_dense_matrix_bytes (row_count column_count : Nat) : Nat :=
  row_count * 8 * (column_count + 1) + 80

/-- Modelled from the spec, section 4.2: `predicted_usage_ratio` =
(current process resident bytes + predicted bytes) / available system
bytes. -/
def predicted_usage_ratio (rss avail row_count column_count : Nat) : ℚ :=
  ((rss : ℚ) + (predict_dense_matrix_bytes row_count column_count : ℚ)) / (avail : ℚ)

/-! ### Concrete fixtures used by witnesses and counterexamples -/

/-- 52 distinct tokens: a vocabulary large enough that the small-vocabulary
escape (size at most 50) does not trigger. -/
def words52 : List String := (List.range 52).map (fun i => "w" ++ toString i)

/-- One document containing the 52 distinct tokens. -/
def doc52 : String := String.intercalate " " words52

/-- A one-row input frame whose single text column holds `doc52`. -/
def X52 : DF := ⟨["r0"], [("t", [doc52])]⟩

/-- The vectorizer obtained by fitting on `X52`. -/
def vec52 : Vectorizer := ⟨words52⟩

/-- A benign attempt environment: no transform failure, tiny memory
footprint against a large available pool. -/
def envOK : AttemptEnv := ⟨false, false, 0, 1000000000⟩

/-- An attempt environment whose first transform call raises
`MemoryError`. -/
def envOOM : AttemptEnv := ⟨true, false, 0, 1000000000⟩

/-- A two-row input frame whose single text column holds only empty
strings, so that fitting the vectorizer raises the degenerate-vocabulary
`ValueError`. -/
def Xempty : DF := ⟨["r0", "r1"], [("t", ["", ""])]⟩

/-! ### Helper lemmas -/

theorem length_insertByFreq (p : String × Nat) (l : List (String × Nat)) :
    (insertByFreq p l).length = l.length + 1 := by
  induction l with
  | nil => rfl
  | cons q t ih =>
    rw [insertByFreq]
    split
    · simp
    · simp [ih]

theorem length_sortByFreqDesc (l : List (String × Nat)) :
    (sortByFreqDesc l).length = l.length := by
  induction l with
  | nil => rfl
  | cons p t ih => rw [sortByFreqDesc, length_insertByFreq, ih, List.length_cons]

theorem mem_insertByFreq (p q : String × Nat) (l : List (String × Nat)) :
    q ∈ insertByFreq p l ↔ q = p ∨ q ∈ l := by
  induction l with
  | nil => simp [insertByFreq]
  | cons a t ih =>
    rw [insertByFreq]
    split
    · simp
    · simp only [List.mem_cons, ih]
      tauto

theorem sorted_insertByFreq (p : String × Nat) (l : List (String × Nat))
    (h : List.Sorted (fun a b : String × Nat => b.2 ≤ a.2) l) :
    List.Sorted (fun a b : String × Nat => b.2 ≤ a.2) (insertByFreq p l) := by
  induction l with
  | nil => simp [insertByFreq]
  | cons a t ih =>
    rw [List.sorted_cons] at h
    rw [insertByFreq]
    split
    · rename_i hc
      rw [List.sorted_cons]
      refine ⟨?_, List.sorted_cons.mpr h⟩
      intro b hb
      rcases List.mem_cons.mp hb with hb | hb
      · exact hb ▸ hc
      · exact le_trans (h.1 b hb) hc
    · rename_i hc
      rw [List.sorted_cons]
      refine ⟨?_, ih h.2⟩
      intro b hb
      rcases (mem_insertByFreq p b t).mp hb with hb | hb
      · exact hb ▸ le_of_lt (lt_of_not_le hc)
      · exact h.1 b hb

theorem sorted_sortByFreqDesc (l : List (String × Nat)) :
    List.Sorted (fun a b : String × Nat => b.2 ≤ a.2) (sortByFreqDesc l) := by
  induction l with
  | nil => simp [sortByFreqDesc]
  | cons p t ih => exact sorted_insertByFreq p _ ih

theorem length_get_ngram_freq (v : Vectorizer) (tm : List (List Nat)) :
    (get_ngram_freq v tm).length = v.vocabulary_.length := by
  simp [get_ngram_freq, List.enum_eq_enumFrom, List.enumFrom_length]

theorem length_downscale_vectorizer (v w : Vectorizer) (tm : List (List Nat)) (k : Nat)
    (hk : k ≤ v.vocabulary_.length) :
    (downscale_vectorizer w (get_ngram_freq v tm) k).vocabulary_.length = k := by
  rw [downscale_vectorizer, List.length_map, List.length_take,
    length_sortByFreqDesc, length_get_ngram_freq]
  exact min_eq_left hk

theorem floor_mul_lt_one_le (n : Nat) (r : ℚ) (h1 : r < 1) :
    Nat.floor ((n : ℚ) * r) ≤ n := by
  calc Nat.floor ((n : ℚ) * r) ≤ Nat.floor ((n : ℚ)) :=
        Nat.floor_le_floor (by nlinarith)
    _ = n := Nat.floor_natCast n

theorem nlpDocs_length (X : DF) (features_in : List String) :
    (nlpDocs X features_in).length = X.nRows := by
  simp [nlpDocs, DF.rowsOf]

theorem transform_length (v : Vectorizer) (docs : List String) :
    (v.transform docs).length = docs.length := by
  simp [Vectorizer.transform]

theorem pd_concat_cols_singleton (d : NumDF) : pd_concat_cols [d] = d := by
  simp [pd_concat_cols]

theorem generate_no_vectorizer (mmr : ℚ) (X : DF) (st : TextNgramState)
    (env : AttemptEnv) (dr : Option ℚ) (h : st.vectorizers = []) :
    generate_text_ngrams mmr X st env ["__nlp__"] dr = (st, .error .indexError) := by
  simp [generate_text_ngrams, ngram_feature_loop, h]

theorem generate_oomFirst (mmr : ℚ) (X : DF) (st : TextNgramState)
    (env : AttemptEnv) (dr : Option ℚ) (v : Vectorizer) (vs : List Vectorizer)
    (hv : st.vectorizers = v :: vs) (h1 : env.oomFirst = true) :
    generate_text_ngrams mmr X st env ["__nlp__"] dr = (st, .error .memoryError) := by
  simp [generate_text_ngrams, ngram_feature_loop, hv, h1]

theorem generate_postfit (mmr : ℚ) (X : DF) (st : TextNgramState)
    (env : AttemptEnv) (dr : Option ℚ) (v : Vectorizer) (vs : List Vectorizer)
    (hv : st.vectorizers = v :: vs) (hfit : st.is_fit = true)
    (h1 : env.oomFirst = false) :
    generate_text_ngrams mmr X st env ["__nlp__"] dr =
      (st, .ok (buildNgramDF "__nlp__" v.vocabulary_
        (v.transform (nlpDocs X st.features_in)))) := by
  simp [generate_text_ngrams, ngram_feature_loop, hv, hfit, h1,
    Vectorizer.get_feature_names, pd_concat_cols_singleton]

theorem generate_fit_singleton (mmr : ℚ) (X : DF) (st : TextNgramState)
    (env : AttemptEnv) (dr : Option ℚ) (v : Vectorizer)
    (hv : st.vectorizers = [v]) (hfit : st.is_fit = false)
    (h1 : env.oomFirst = false) :
    generate_text_ngrams mmr X st env ["__nlp__"] dr =
      match select_downsample_ratio mmr
          (predicted_percentage env X v.vocabulary_.length) dr with
      | none =>
        (st, .ok (buildNgramDF "__nlp__" v.vocabulary_
          (v.transform (nlpDocs X st.features_in))))
      | some r =>
        if 1 ≤ r ∨ r ≤ 0 then (st, .error .valueError)
        else
          let v2 := downscale_vectorizer v
            (get_ngram_freq v (v.transform (nlpDocs X st.features_in)))
            (Nat.floor ((v.vocabulary_.length : ℚ) * r))
          if env.oomSecond then
            ({ st with vectorizers := [v2] }, .error .memoryError)
          else
            ({ st with vectorizers := [v2] }, .ok (buildNgramDF "__nlp__"
              v2.vocabulary_ (v2.transform (nlpDocs X st.features_in)))) := by
  rcases hsel : select_downsample_ratio mmr
      (predicted_percentage env X v.vocabulary_.length) dr with _ | r
  · simp [generate_text_ngrams, ngram_feature_loop, hv, hfit, h1, hsel,
      Vectorizer.get_feature_names, pd_concat_cols_singleton]
  · by_cases hc : 1 ≤ r ∨ r ≤ 0
    · simp [generate_text_ngrams, ngram_feature_loop, hv, hfit, h1, hsel, hc]
    · rcases h2 : env.oomSecond with _ | _
      · simp [generate_text_ngrams, ngram_feature_loop, hv, hfit, h1, hsel, hc, h2,
          Vectorizer.get_feature_names, pd_concat_cols_singleton]
      · simp [generate_text_ngrams, ngram_feature_loop, hv, hfit, h1, hsel, hc, h2]

theorem retry_loop_ok (mmr : ℚ) (X : DF) (st st2 : TextNgramState)
    (dr : Option ℚ) (count : Nat) (env : AttemptEnv) (rest : List AttemptEnv)
    (df : NumDF)
    (h : generate_text_ngrams mmr X st env ["__nlp__"] dr = (st2, .ok df)) :
    nlp_retry_loop mmr X st dr count (env :: rest) = .ok st2 df := by
  simp [nlp_retry_loop, h]

theorem retry_loop_raised (mmr : ℚ) (X : DF) (st st2 : TextNgramState)
    (dr : Option ℚ) (count : Nat) (env : AttemptEnv) (rest : List AttemptEnv)
    (e : PyErr)
    (h : generate_text_ngrams mmr X st env ["__nlp__"] dr = (st2, .error e))
    (hfit : st2.is_fit = true) :
    nlp_retry_loop mmr X st dr count (env :: rest) = .raised st2 e := by
  simp [nlp_retry_loop, h, hfit]

theorem retry_loop_skip (mmr : ℚ) (X : DF) (st st2 : TextNgramState)
    (dr : Option ℚ) (count : Nat) (env : AttemptEnv) (rest : List AttemptEnv)
    (e : PyErr)
    (h : generate_text_ngrams mmr X st env ["__nlp__"] dr = (st2, .error e))
    (hfit : st2.is_fit = false)
    (hskip : skip_nlp_decision st2.vectorizers (count + 1) = true) :
    nlp_retry_loop mmr X st dr count (env :: rest) =
      .skipped { st2 with vectorizers := [], features_in := [] } := by
  simp [nlp_retry_loop, h, hfit, hskip]

theorem retry_loop_retry (mmr : ℚ) (X : DF) (st st2 : TextNgramState)
    (dr : Option ℚ) (count : Nat) (env : AttemptEnv) (rest : List AttemptEnv)
    (e : PyErr)
    (h : generate_text_ngrams mmr X st env ["__nlp__"] dr = (st2, .error e))
    (hfit : st2.is_fit = false)
    (hskip : skip_nlp_decision st2.vectorizers (count + 1) = false) :
    nlp_retry_loop mmr X st dr count (env :: rest) =
      nlp_retry_loop mmr X st2 (some (1 / 4)) (count + 1) rest := by
  simp [nlp_retry_loop, h, hfit, hskip]

theorem skip_nlp_decision_false_lt3 (vs : List Vectorizer) (c : Nat)
    (h : skip_nlp_decision vs c = false) : c < 3 := by
  unfold skip_nlp_decision at h
  split at h
  · exact absurd h (by simp)
  · have := of_decide_eq_false h
    omega

theorem retry_loop_not_fuel (mmr : ℚ) (X : DF) :
    ∀ (envs : List AttemptEnv) (st : TextNgramState) (dr : Option ℚ) (count : Nat),
      count ≤ 2 → 3 - count ≤ envs.length →
      (nlp_retry_loop mmr X st dr count envs).isFuel = false := by
  intro envs
  induction envs with
  | nil =>
    intro st dr count hc hl
    simp at hl
    omega
  | cons env rest ih =>
    intro st dr count hc hl
    rcases h : generate_text_ngrams mmr X st env ["__nlp__"] dr with ⟨st2, res⟩
    rcases res with e | df
    case ok =>
      rw [retry_loop_ok mmr X st st2 dr count env rest _ h]
      rfl
    case error =>
      rcases hfit : st2.is_fit with _ | _
      · rcases hskip : skip_nlp_decision st2.vectorizers (count + 1) with _ | _
        · rw [retry_loop_retry mmr X st st2 dr count env rest e h hfit hskip]
          have hlt := skip_nlp_decision_false_lt3 _ _ hskip
          exact ih st2 (some (1 / 4)) (count + 1) (by omega)
            (by simp at hl ⊢; omega)
        · rw [retry_loop_skip mmr X st st2 dr count env rest e h hfit hskip]
          rfl
      · rw [retry_loop_raised mmr X st st2 dr count env rest e h hfit]
        rfl

theorem enum_map_comp_snd {α β : Type} (l : List α) (f : α → β) :
    l.enum.map (fun p => f p.2) = l.map f := by
  rw [show (fun p : Nat × α => f p.2) = f ∘ Prod.snd from rfl, ← List.map_map,
    List.enum_eq_enumFrom, List.enumFrom_map_snd]

theorem buildNgramDF_col_names (g : String) (names : List String)
    (tm : List (List Nat)) :
    (buildNgramDF g names tm).cols.map Prod.fst =
      names.map (fun t => g ++ "." ++ t) ++ [g ++ "._total_"] := by
  simp only [buildNgramDF, List.map_append, List.map_map, List.map_cons, List.map_nil]
  rw [show (Prod.fst ∘ fun p : Nat × String =>
      (g ++ "." ++ p.2, tm.map (fun row => ((row.getD p.1 0 : Nat) : Int)))) =
      (fun p : Nat × String => g ++ "." ++ p.2) from rfl]
  rw [enum_map_comp_snd names (fun t => g ++ "." ++ t)]

theorem buildNgramDF_total_col (g : String) (v : Vectorizer) (docs : List String) :
    (buildNgramDF g v.vocabulary_ (v.transform docs)).cols.getLast? =
      some (g ++ "._total_",
        docs.map (fun d =>
          toInt32 (v.vocabulary_.countP (fun t => decide (0 < tokenCount d t))))) := by
  rw [buildNgramDF]
  simp only [List.getLast?_concat, Vectorizer.transform, List.map_map,
    Function.comp_def, List.countP_map]

theorem buildNgramDF_col_lengths (g : String) (names : List String)
    (tm : List (List Nat)) :
    ∀ c ∈ (buildNgramDF g names tm).cols, c.2.length = tm.length := by
  intro c hc
  rw [buildNgramDF] at hc
  rcases List.mem_append.mp hc with hc | hc
  · obtain ⟨p, _, rfl⟩ := List.mem_map.mp hc
    exact List.length_map tm _
  · rw [List.mem_singleton.mp hc]
    exact List.length_map tm _

theorem buildNgramDF_rowIndex (g : String) (names : List String)
    (tm : List (List Nat)) :
    (buildNgramDF g names tm).rowIndex =
      (List.range tm.length).map (fun i => toString i) := rfl

theorem generate_features_empty (mmr : ℚ) (X : DF) (st : TextNgramState)
    (envs : List AttemptEnv) (h : st.features_in = []) :
    generate_features_text_ngram mmr X st envs = (st, .error .valueError) := by
  simp [generate_features_text_ngram, h, pd_DataFrame_index_of_df]

theorem fit_transform_empty (mmr : ℚ) (X : DF) (st : TextNgramState)
    (envs : List AttemptEnv) (h : st.features_in = []) :
    fit_transform_text_ngram mmr X st envs = (st, .error .valueError) := by
  rw [fit_transform_text_ngram, generate_features_empty mmr X st envs h]

theorem nonspace_ratio_eq (s : String) (p : Char → Bool) :
    (if (removeSpaces s).isEmpty then (0 : ℚ)
     else (((removeSpaces s).data.countP p : Nat) : ℚ) /
       (((removeSpaces s).length : Nat) : ℚ)) =
    (((s.data.filter (fun c => ! (c == ' '))).countP p : Nat) : ℚ) /
      (((s.data.filter (fun c => ! (c == ' '))).length : Nat) : ℚ) := by
  by_cases he : (removeSpaces s).isEmpty = true
  · have h0 : removeSpaces s = "" := (String.isEmpty_iff _).mp he
    have h1 : s.data.filter (fun c => ! (c == ' ')) = [] := congrArg String.data h0
    rw [if_pos he, h1]
    simp
  · rw [if_neg he]
    rfl

theorem symbol_ratio_div_eq (s : String) (symbol : Char) :
    (if (char_count s : ℚ) = 0 then 0
     else (symbol_in_string_count s symbol : ℚ) / (char_count s : ℚ)) =
    (symbol_in_string_count s symbol : ℚ) / (char_count s : ℚ) := by
  obtain ⟨l⟩ := s
  by_cases h : (char_count ⟨l⟩ : ℚ) = 0
  · have hl : l = [] := by
      have h0 : char_count ⟨l⟩ = 0 := by exact_mod_cast h
      exact List.length_eq_zero.mp h0
    have hc : symbol_in_string_count ⟨l⟩ symbol = 0 := by
      rw [symbol_in_string_count]
      split
      · rfl
      · subst hl
        rfl
    rw [if_pos h, hc]
    simp
  · rw [if_neg h]

theorem generate_postfit_cases (mmr : ℚ) (X : DF) (st : TextNgramState)
    (env : AttemptEnv) (dr : Option ℚ) (hfit : st.is_fit = true) :
    generate_text_ngrams mmr X st env ["__nlp__"] dr =
      (st, match st.vectorizers, env.oomFirst with
        | [], _ => .error .indexError
        | _ :: _, true => .error .memoryError
        | v :: _, false =>
          .ok (buildNgramDF "__nlp__" v.vocabulary_
            (v.transform (nlpDocs X st.features_in)))) := by
  rcases hv : st.vectorizers with _ | ⟨v, vs⟩
  · rw [generate_no_vectorizer mmr X st env dr hv]
  · rcases h1 : env.oomFirst with _ | _
    · rw [generate_postfit mmr X st env dr v vs hv hfit h1]
    · rw [generate_oomFirst mmr X st env dr v vs hv h1]

/-! ### Claims

Concrete witnesses evaluate the embedded generators by kernel reduction;
Batteries marks rational arithmetic `@[irreducible]` for performance, so
within this section it is locally restored to its definitional behaviour. -/

section Claims
set_option allowUnsafeReducibility true
set_option maxRecDepth 8000
attribute [local semireducible] Rat.mul Rat.add Rat.sub Rat.inv

/-- C5: the predicted dense-matrix memory model is exact: the byte count
computed at line 127 equals the spec's `predict_dense_matrix_bytes`, which
equals `r*8*(c+1)+80` for all non-negative row and column counts, and the
predicted usage percentage of lines 128-131 equals the spec's
`predicted_usage_ratio`: (resident bytes + predicted bytes) / available
bytes. -/
theorem claim_C5 (X : DF) (env : AttemptEnv) (shape1 : Nat) :
    predicted_ngrams_memory_usage_bytes X shape1 =
      predict_dense_matrix_bytes X.nRows shape1
    ∧ predict_dense_matrix_bytes X.nRows shape1 = X.nRows * 8 * (shape1 + 1) + 80
    ∧ predicted_percentage env X shape1 =
        predicted_usage_ratio env.mem_rss env.mem_avail X.nRows shape1 := by
  refine ⟨rfl, rfl, ?_⟩
  rw [predicted_percentage, predicted_usage_ratio]
  push_cast
  rfl

/-- C3: once the generator is fitted, a runtime error during transform is
fatal and propagated unchanged to the caller (the loop never retries), and
the post-fit path performs no memory estimation, no downsampling and no
vocabulary mutation: the state is returned untouched and the outcome
ignores the memory readings and the would-be second transform, depending
only on whether the single transform call itself raises. -/
theorem claim_C3 (mmr : ℚ) (X : DF) (st : TextNgramState) (env : AttemptEnv)
    (dr : Option ℚ) (count : Nat) (rest : List AttemptEnv)
    (hfit : st.is_fit = true) :
    (generate_text_ngrams mmr X st env ["__nlp__"] dr).1 = st
    ∧ (∀ env2 : AttemptEnv, env2.oomFirst = env.oomFirst →
        generate_text_ngrams mmr X st env2 ["__nlp__"] dr
          = generate_text_ngrams mmr X st env ["__nlp__"] dr)
    ∧ (∀ (st2 : TextNgramState) (e : PyErr),
        generate_text_ngrams mmr X st env ["__nlp__"] dr = (st2, .error e) →
        nlp_retry_loop mmr X st dr count (env :: rest) = .raised st2 e) := by
  refine ⟨?_, ?_, ?_⟩
  · rw [generate_postfit_cases mmr X st env dr hfit]
  · intro env2 henv
    rw [generate_postfit_cases mmr X st env dr hfit,
      generate_postfit_cases mmr X st env2 dr hfit, henv]
  · intro st2 e h
    have hst : st2 = st := by
      have h1 := congrArg Prod.fst h
      rw [generate_postfit_cases mmr X st env dr hfit] at h1
      exact h1.symm
    exact retry_loop_raised mmr X st st2 dr count env rest e h (hst ▸ hfit)

/-- Witness for C3 at a concrete fitted generator and a failing transform:
the error is re-raised with the state untouched. -/
theorem claim_C3_witness :
    nlp_retry_loop (3 / 20) ⟨["a"], [("t", ["cat"])]⟩ ⟨[⟨["cat"]⟩], ["t"], true⟩
        none 0 (⟨true, false, 0, 1000⟩ :: [envOK])
      = .raised ⟨[⟨["cat"]⟩], ["t"], true⟩ .memoryError := by
  have h := claim_C3 (3 / 20) ⟨["a"], [("t", ["cat"])]⟩ ⟨[⟨["cat"]⟩], ["t"], true⟩
    ⟨true, false, 0, 1000⟩ none 0 [envOK] rfl
  exact h.2.2 ⟨[⟨["cat"]⟩], ["t"], true⟩ .memoryError (by decide)

/-- C1: during fit, a failed generation attempt abandons the n-gram group
(`skip_nlp`) iff some already-fitted vectorizer has vocabulary size at most
50 or the failure counter has reached 3; otherwise the loop retries the
generation on the previously fitted (never re-fitted) vectorizer state with
the fixed downsample ratio 0.25; and the failure counter together with the
small-vocabulary escape bound the loop: it always settles within the first
3 attempt environments. -/
theorem claim_C1 (mmr : ℚ) (X : DF) :
    (∀ (vectorizers : List Vectorizer) (count : Nat),
      skip_nlp_decision vectorizers count = true ↔
        (∃ v ∈ vectorizers, v.vocabulary_.length ≤ 50) ∨ 3 ≤ count)
    ∧ (∀ (st st2 : TextNgramState) (dr : Option ℚ) (count : Nat)
        (env : AttemptEnv) (rest : List AttemptEnv) (e : PyErr),
        generate_text_ngrams mmr X st env ["__nlp__"] dr = (st2, .error e) →
        st2.is_fit = false →
        skip_nlp_decision st2.vectorizers (count + 1) = false →
        nlp_retry_loop mmr X st dr count (env :: rest) =
          nlp_retry_loop mmr X st2 (some (1 / 4)) (count + 1) rest)
    ∧ (∀ (st : TextNgramState) (dr : Option ℚ) (count : Nat)
        (envs : List AttemptEnv),
        count ≤ 2 → 3 - count ≤ envs.length →
        (nlp_retry_loop mmr X st dr count envs).isFuel = false) := by
  refine ⟨?_, ?_, ?_⟩
  · intro vs count
    rw [skip_nlp_decision]
    split
    · rename_i h
      simp only [List.any_eq_true, decide_eq_true_eq] at h
      simp only [true_iff]
      exact Or.inl h
    · rename_i h
      simp only [List.any_eq_true, decide_eq_true_eq] at h
      constructor
      · intro hd
        exact Or.inr (of_decide_eq_true hd)
      · rintro (⟨v, hv1, hv2⟩ | hc)
        · exact absurd ⟨v, hv1, hv2⟩ h
        · exact decide_eq_true hc
  · intro st st2 dr count env rest e h hfit hskip
    exact retry_loop_retry mmr X st st2 dr count env rest e h hfit hskip
  · intro st dr count envs hc hl
    exact retry_loop_not_fuel mmr X envs st dr count hc hl

/-- Witness for C1: a concrete failed attempt with a 52-term vocabulary and
counter 1 retries with ratio 0.25 on the same fitted state; with the
counter at 3 the abandonment decision fires; and a run fed three failing
attempt environments settles without exhausting them. -/
theorem claim_C1_witness :
    nlp_retry_loop (3 / 20) X52 ⟨[vec52], ["t"], false⟩ none 0 (envOOM :: [envOK])
      = nlp_retry_loop (3 / 20) X52 ⟨[vec52], ["t"], false⟩ (some (1 / 4)) 1 [envOK]
    ∧ skip_nlp_decision [vec52] 3 = true
    ∧ (nlp_retry_loop (3 / 20) X52 ⟨[vec52], ["t"], false⟩ none 0
        [envOOM, envOOM, envOOM]).isFuel = false := by
  obtain ⟨h1, h2, h3⟩ := claim_C1 (3 / 20) X52
  refine ⟨?_, ?_, ?_⟩
  · exact h2 ⟨[vec52], ["t"], false⟩ ⟨[vec52], ["t"], false⟩ none 0 envOOM [envOK]
      .memoryError (by decide) rfl (by decide)
  · exact (h1 [vec52] 3).mpr (Or.inr (by decide))
  · exact h3 ⟨[vec52], ["t"], false⟩ none 0 [envOOM, envOOM, envOOM]
      (by decide) (by decide)

/-- C4: on fit-time abandonment the handler clears both the vectorizer list
and `features_in`; once `features_in` is empty every later call leaves the
generator state unchanged, so the removal is permanent for the instance's
lifetime.  However, instead of then returning an empty n-gram feature
result, the call raises `ValueError`: with `X_text_ngram = None` line 112
executes `DataFrame(index=X)`, handing the whole input frame to pandas as
an index, which pandas rejects — the third conjunct shows the concrete
three-failure scenario ending in the cleared state and that error. -/
theorem claim_C4 :
    (∀ (mmr : ℚ) (X : DF) (st st2 : TextNgramState) (dr : Option ℚ)
       (count : Nat) (env : AttemptEnv) (rest : List AttemptEnv) (e : PyErr),
       generate_text_ngrams mmr X st env ["__nlp__"] dr = (st2, .error e) →
       st2.is_fit = false →
       skip_nlp_decision st2.vectorizers (count + 1) = true →
       nlp_retry_loop mmr X st dr count (env :: rest) =
         .skipped { st2 with vectorizers := [], features_in := [] })
    ∧ (∀ (mmr : ℚ) (X : DF) (st : TextNgramState) (envs : List AttemptEnv),
        st.features_in = [] →
        generate_features_text_ngram mmr X st envs = (st, .error .valueError))
    ∧ generate_features_text_ngram (3 / 20) X52 ⟨[], ["t"], false⟩
        [envOOM, envOOM, envOOM] = (⟨[], [], false⟩, .error .valueError) := by
  refine ⟨?_, ?_, ?_⟩
  · intro mmr X st st2 dr count env rest e h hfit hskip
    exact retry_loop_skip mmr X st st2 dr count env rest e h hfit hskip
  · intro mmr X st envs h
    exact generate_features_empty mmr X st envs h
  · decide

/-- Witness for C4's universally quantified parts at concrete inputs: a
failing attempt with the counter reaching 3 ends in the `skipped` state
with both lists cleared, and a call on an already-cleared generator leaves
it unchanged while raising `ValueError`. -/
theorem claim_C4_witness :
    nlp_retry_loop (3 / 20) X52 ⟨[vec52], ["t"], false⟩ none 2 (envOOM :: [])
      = .skipped ⟨[], [], false⟩
    ∧ generate_features_text_ngram (3 / 20) X52 ⟨[], [], false⟩ []
        = (⟨[], [], false⟩, .error .valueError) := by
  obtain ⟨h1, h2, _⟩ := claim_C4
  constructor
  · exact h1 (3 / 20) X52 ⟨[vec52], ["t"], false⟩ ⟨[vec52], ["t"], false⟩ none 2
      envOOM [] .memoryError (by decide) rfl (by decide)
  · exact h2 (3 / 20) X52 ⟨[], [], false⟩ [] rfl

/-- C7: fitting on degenerate text (every document empty) raises the
degenerate-vocabulary `ValueError`, and the generator does permanently
exclude the whole text group from `features_in` with no vectorizer stored.
But the fit call then aborts anyway: with no vectorizer, each retry
iteration raises `IndexError` until abandonment, after which line 112's
`DataFrame(index=X)` raises `ValueError` out of `fit_transform` — the
error does escape, contrary to the claim. -/
theorem claim_C7 :
    fit_vectorizers Xempty ⟨[], ["t"], false⟩ ["__nlp__"] = ⟨[], [], false⟩
    ∧ fit_transform_text_ngram (3 / 20) Xempty ⟨[], ["t"], false⟩
        [envOK, envOK, envOK] = (⟨[], [], false⟩, .error .valueError) := by
  exact ⟨by decide, by decide⟩

/-- C8: with zero designated text columns (`features_in` empty),
`_fit_transform` does not return an empty table with the input's row index
and the mapping with an empty "text_ngram" group — it raises `ValueError`,
because `X_text_ngram` stays `None` and line 112 builds
`DataFrame(index=X)` with the input DataFrame as the index, which pandas
rejects. -/
theorem claim_C8 (max_memory_ratio : ℚ) (X : DF) (st : TextNgramState)
    (envs : List AttemptEnv) (h : st.features_in = []) :
    fit_transform_text_ngram max_memory_ratio X st envs =
      (st, .error .valueError) :=
  fit_transform_empty max_memory_ratio X st envs h

/-- Witness for C8 at a concrete one-row frame with no designated text
columns. -/
theorem claim_C8_witness :
    fit_transform_text_ngram (3 / 20) ⟨["a"], []⟩ ⟨[], [], false⟩ [] =
      (⟨[], [], false⟩, .error .valueError) :=
  claim_C8 (3 / 20) ⟨["a"], []⟩ ⟨[], [], false⟩ [] rfl

/-- C10: the fit-time retry loop catches every exception alike — the
handler's behaviour does not depend on the error's type, each caught
exception increments the single failure counter — and the loop settles
within the first 3 (hence at most 4) attempt environments.  The third
conjunct shows persistent non-memory failures (`IndexError` on every
attempt): the loop itself degrades to dropping the family (`skipped`,
nothing re-raised), but the overall call still hands the caller a
`ValueError` because the abandonment path runs line 112's
`DataFrame(index=X)`. -/
theorem claim_C10 :
    (∀ (mmr : ℚ) (X : DF) (st st2 : TextNgramState) (dr : Option ℚ)
       (count : Nat) (env : AttemptEnv) (rest : List AttemptEnv) (e : PyErr),
       generate_text_ngrams mmr X st env ["__nlp__"] dr = (st2, .error e) →
       st2.is_fit = false →
       nlp_retry_loop mmr X st dr count (env :: rest) =
         (if skip_nlp_decision st2.vectorizers (count + 1) then
            .skipped { st2 with vectorizers := [], features_in := [] }
          else nlp_retry_loop mmr X st2 (some (1 / 4)) (count + 1) rest))
    ∧ (∀ (mmr : ℚ) (X : DF) (st : TextNgramState) (dr : Option ℚ)
        (count : Nat) (envs : List AttemptEnv),
        count ≤ 2 → 3 - count ≤ envs.length →
        (nlp_retry_loop mmr X st dr count envs).isFuel = false)
    ∧ (nlp_retry_loop (3 / 20) Xempty ⟨[], [], false⟩ none 0 [envOK, envOK, envOK]
        = .skipped ⟨[], [], false⟩
       ∧ generate_features_text_ngram (3 / 20) Xempty ⟨[], ["t"], false⟩
           [envOK, envOK, envOK] = (⟨[], [], false⟩, .error .valueError)) := by
  refine ⟨?_, ?_, by decide, by decide⟩
  · intro mmr X st st2 dr count env rest e h hfit
    rcases hskip : skip_nlp_decision st2.vectorizers (count + 1) with _ | _
    · rw [if_neg (by simp [hskip])]
      exact retry_loop_retry mmr X st st2 dr count env rest e h hfit hskip
    · rw [if_pos (by simp [hskip])]
      exact retry_loop_skip mmr X st st2 dr count env rest e h hfit hskip
  · intro mmr X st dr count envs hc hl
    exact retry_loop_not_fuel mmr X envs st dr count hc hl

/-- Witness for C10's quantified parts: a concrete caught `IndexError`
(a non-memory error) steps the loop exactly as the handler equation says,
and a concrete run settles within its three attempt environments. -/
theorem claim_C10_witness :
    nlp_retry_loop (3 / 20) Xempty ⟨[], [], false⟩ none 2 (envOK :: [])
      = .skipped ⟨[], [], false⟩
    ∧ (nlp_retry_loop (3 / 20) Xempty ⟨[], [], false⟩ none 0
        [envOK, envOK, envOK]).isFuel = false := by
  obtain ⟨h1, h2, _⟩ := claim_C10
  constructor
  · have h := h1 (3 / 20) Xempty ⟨[], [], false⟩ ⟨[], [], false⟩ none 2 envOK []
      .indexError (by decide) rfl
    simpa using h
  · exact h2 (3 / 20) Xempty ⟨[], [], false⟩ none 0 [envOK, envOK, envOK]
      (by decide) (by decide)

/-- C2 (amended): during fit, when no downsample ratio has been chosen yet
it is computed exactly once as max_memory_ratio / predicted_percentage,
precisely when the predicted percentage exceeds the threshold (last
conjunct), and a chosen ratio is never recomputed from memory readings
(fourth conjunct).  An applied ratio not strictly between 0 and 1 makes the
generation step raise `ValueError` with the state untouched (first
conjunct) — but the fit-time retry loop catches that error like any other
failure instead of aborting the fit call (second conjunct).  A valid ratio
shrinks the vocabulary to exactly floor(vocab_size * ratio) terms ranked by
descending frequency (ties in original order) and re-transforms exactly
once (third conjunct: the success and the second-transform-failure cases,
vocabulary size, the top-of-the-ranking shape, and sortedness of the
ranking). -/
theorem claim_C2 (mmr : ℚ) (X : DF) (st : TextNgramState) (env : AttemptEnv)
    (v : Vectorizer) (r : ℚ)
    (hv : st.vectorizers = [v]) (hfit : st.is_fit = false)
    (h1 : env.oomFirst = false) :
    ((1 ≤ r ∨ r ≤ 0) →
      generate_text_ngrams mmr X st env ["__nlp__"] (some r)
        = (st, .error .valueError))
    ∧ (∀ (count : Nat) (rest : List AttemptEnv),
        (1 ≤ r ∨ r ≤ 0) →
        skip_nlp_decision st.vectorizers (count + 1) = false →
        nlp_retry_loop mmr X st (some r) count (env :: rest)
          = nlp_retry_loop mmr X st (some (1 / 4)) (count + 1) rest)
    ∧ (0 < r → r < 1 →
        ∀ v2 : Vectorizer,
        v2 = downscale_vectorizer v
            (get_ngram_freq v (v.transform (nlpDocs X st.features_in)))
            (Nat.floor ((v.vocabulary_.length : ℚ) * r)) →
        (env.oomSecond = false →
          generate_text_ngrams mmr X st env ["__nlp__"] (some r) =
            ({ st with vectorizers := [v2] },
             .ok (buildNgramDF "__nlp__" v2.vocabulary_
               (v2.transform (nlpDocs X st.features_in)))))
        ∧ (env.oomSecond = true →
          generate_text_ngrams mmr X st env ["__nlp__"] (some r) =
            ({ st with vectorizers := [v2] }, .error .memoryError))
        ∧ v2.vocabulary_.length = Nat.floor ((v.vocabulary_.length : ℚ) * r)
        ∧ v2.vocabulary_ =
            ((sortByFreqDesc
              (get_ngram_freq v (v.transform (nlpDocs X st.features_in)))).take
              (Nat.floor ((v.vocabulary_.length : ℚ) * r))).map Prod.fst
        ∧ List.Sorted (fun a b : String × Nat => b.2 ≤ a.2)
            (sortByFreqDesc
              (get_ngram_freq v (v.transform (nlpDocs X st.features_in)))))
    ∧ (∀ env2 : AttemptEnv, env2.oomFirst = false →
        env2.oomSecond = env.oomSecond →
        generate_text_ngrams mmr X st env2 ["__nlp__"] (some r)
          = generate_text_ngrams mmr X st env ["__nlp__"] (some r))
    ∧ (mmr < predicted_percentage env X v.vocabulary_.length →
        generate_text_ngrams mmr X st env ["__nlp__"] none
          = generate_text_ngrams mmr X st env ["__nlp__"]
              (some (mmr / predicted_percentage env X v.vocabulary_.length))) := by
  refine ⟨?_, ?_, ?_, ?_, ?_⟩
  · intro hr
    rw [generate_fit_singleton mmr X st env (some r) v hv hfit h1]
    simp [select_downsample_ratio, hr]
  · intro count rest hr hskip
    have ha : generate_text_ngrams mmr X st env ["__nlp__"] (some r)
        = (st, .error .valueError) := by
      rw [generate_fit_singleton mmr X st env (some r) v hv hfit h1]
      simp [select_downsample_ratio, hr]
    exact retry_loop_retry mmr X st st (some r) count env rest .valueError ha hfit hskip
  · intro hr0 hr1 v2 hv2
    have hnot : ¬ (1 ≤ r ∨ r ≤ 0) := by
      rintro (h | h) <;> linarith
    refine ⟨?_, ?_, ?_, ?_, ?_⟩
    · intro h2
      rw [generate_fit_singleton mmr X st env (some r) v hv hfit h1]
      simp [select_downsample_ratio, hnot, h2, hv2]
    · intro h2
      rw [generate_fit_singleton mmr X st env (some r) v hv hfit h1]
      simp [select_downsample_ratio, hnot, h2, hv2]
    · rw [hv2]
      exact length_downscale_vectorizer v v _ _
        (floor_mul_lt_one_le v.vocabulary_.length r hr1)
    · rw [hv2, downscale_vectorizer]
    · exact sorted_sortByFreqDesc _
  · intro env2 h1' h2'
    rw [generate_fit_singleton mmr X st env2 (some r) v hv hfit h1',
      generate_fit_singleton mmr X st env (some r) v hv hfit h1]
    simp only [select_downsample_ratio, h2']
  · intro hlt
    rw [generate_fit_singleton mmr X st env none v hv hfit h1,
      generate_fit_singleton mmr X st env
        (some (mmr / predicted_percentage env X v.vocabulary_.length)) v hv hfit h1]
    simp only [select_downsample_ratio, if_pos hlt]

/-- C2 counterexample: with `max_memory_ratio = 0` the first fit-time
attempt computes and applies the downsample ratio 0, which is not strictly
between 0 and 1, and the generation step raises `ValueError` — yet the fit
call does not abort: the retry loop catches the error and the overall
fit-time generation succeeds (with the vocabulary shrunk by the fixed
retry ratio). -/
theorem claim_C2_counterexample :
    (generate_text_ngrams 0 X52 ⟨[vec52], ["t"], false⟩ envOK ["__nlp__"] none).2
      = .error .valueError
    ∧ exceptIsOk (generate_features_text_ngram 0 X52 ⟨[], ["t"], false⟩
        [envOK, envOK]).2 = true := ⟨by decide, by decide⟩

/-- Witness for C2 at concrete inputs: the invalid ratio 2 raises
`ValueError` leaving the state untouched, and the valid ratio 1/2 shrinks
the 52-term vocabulary to exactly 26 terms. -/
theorem claim_C2_witness :
    generate_text_ngrams (3 / 20) X52 ⟨[vec52], ["t"], false⟩ envOK ["__nlp__"] (some 2)
      = (⟨[vec52], ["t"], false⟩, .error .valueError)
    ∧ (generate_text_ngrams (3 / 20) X52 ⟨[vec52], ["t"], false⟩ envOK ["__nlp__"]
        (some (1 / 2))).1.vectorizers.map (fun w => w.vocabulary_.length) = [26] := by
  have ha := (claim_C2 (3 / 20) X52 ⟨[vec52], ["t"], false⟩ envOK vec52 2
    rfl rfl rfl).1
  have hc := (claim_C2 (3 / 20) X52 ⟨[vec52], ["t"], false⟩ envOK vec52 (1 / 2)
    rfl rfl rfl).2.2.1
  constructor
  · exact ha (Or.inl (by norm_num))
  · rw [((hc (by norm_num) (by norm_num) _ rfl).1 rfl)]
    decide

/-- C6 (amended): for a fitted generator whose transform succeeds, the
output frame has one column per vocabulary term named by the group name, a
dot and the term, plus the group's `._total_` column whose value for each
row is the count of that row's strictly positive term cells cast to int32;
every column has exactly one value per input row, in input row order — but
the row index is reset to the default integer range 0..n-1 rather than
preserving the input frame's index. -/
theorem claim_C6 (mmr : ℚ) (X : DF) (st : TextNgramState) (env : AttemptEnv)
    (dr : Option ℚ) (v : Vectorizer) (vs : List Vectorizer)
    (hv : st.vectorizers = v :: vs) (hfit : st.is_fit = true)
    (h1 : env.oomFirst = false) (_hne : X.nRows ≠ 0) :
    generate_text_ngrams mmr X st env ["__nlp__"] dr =
      (st, .ok (buildNgramDF "__nlp__" v.vocabulary_
        (v.transform (nlpDocs X st.features_in))))
    ∧ (buildNgramDF "__nlp__" v.vocabulary_
        (v.transform (nlpDocs X st.features_in))).cols.map Prod.fst =
        v.vocabulary_.map (fun t => "__nlp__." ++ t) ++ ["__nlp__._total_"]
    ∧ (buildNgramDF "__nlp__" v.vocabulary_
        (v.transform (nlpDocs X st.features_in))).cols.getLast? =
        some ("__nlp__._total_", (nlpDocs X st.features_in).map (fun d =>
          toInt32 (v.vocabulary_.countP (fun t => decide (0 < tokenCount d t)))))
    ∧ (∀ c ∈ (buildNgramDF "__nlp__" v.vocabulary_
        (v.transform (nlpDocs X st.features_in))).cols, c.2.length = X.nRows)
    ∧ (buildNgramDF "__nlp__" v.vocabulary_
        (v.transform (nlpDocs X st.features_in))).rowIndex =
        (List.range X.nRows).map (fun i => toString i) := by
  refine ⟨generate_postfit mmr X st env dr v vs hv hfit h1,
    buildNgramDF_col_names _ _ _, buildNgramDF_total_col _ _ _, ?_, ?_⟩
  · intro c hc
    rw [buildNgramDF_col_lengths "__nlp__" v.vocabulary_ _ c hc, transform_length,
      nlpDocs_length]
  · rw [buildNgramDF_rowIndex, transform_length, nlpDocs_length]

/-- C6 counterexample: on an input frame indexed by "a", "b" the output is
indexed by "0", "1" — the row index is not preserved (`pd.DataFrame` of
the bare dense array at line 151 gets a fresh RangeIndex). -/
theorem claim_C6_counterexample :
    (generate_text_ngrams (3 / 20) ⟨["a", "b"], [("t", ["cat", "dog"])]⟩
        ⟨[⟨["cat", "dog"]⟩], ["t"], true⟩ ⟨false, false, 0, 1000⟩ ["__nlp__"] none).2
      = .ok ⟨["0", "1"],
          [("__nlp__.cat", [1, 0]), ("__nlp__.dog", [0, 1]),
           ("__nlp__._total_", [1, 1])]⟩
    ∧ (["0", "1"] : List String) ≠ ["a", "b"] := ⟨by decide, by decide⟩

/-- Witness for C6 at a concrete fitted generator and two-row input. -/
theorem claim_C6_witness :
    generate_text_ngrams (3 / 20) ⟨["a", "b"], [("t", ["cat", "dog"])]⟩
        ⟨[⟨["cat", "dog"]⟩], ["t"], true⟩ ⟨false, false, 0, 1000⟩ ["__nlp__"] none =
      (⟨[⟨["cat", "dog"]⟩], ["t"], true⟩,
       .ok (buildNgramDF "__nlp__" (Vectorizer.mk ["cat", "dog"]).vocabulary_
         ((Vectorizer.mk ["cat", "dog"]).transform
           (nlpDocs ⟨["a", "b"], [("t", ["cat", "dog"])]⟩ ["t"])))) :=
  (claim_C6 (3 / 20) ⟨["a", "b"], [("t", ["cat", "dog"])]⟩
    ⟨[⟨["cat", "dog"]⟩], ["t"], true⟩ ⟨false, false, 0, 1000⟩ none
    ⟨["cat", "dog"]⟩ [] rfl rfl rfl (by decide)).1

/-- C9 (amended): the four character-class ratio columns divide the
matching-character count by the non-space character count (with the empty
case giving 0), the symbol-ratio columns divide the symbol count by
char_count — which counts every character including spaces — with the 0/0
case filled to 0, and for the input "AbC 123!" the features are
char_count 8, word_count 2, a count of 1 for the symbol '!', class ratios
2/7, 1/7, 3/7, 1/7 over the 7 non-space characters, and a symbol ratio of
1/8 (not 1/7: the denominator is char_count = 8). -/
theorem claim_C9 (symbols : List Char) (values : List String) (feature : String) :
    ((generate_text_special symbols values feature).get? 2
       = some (feature ++ ".capital_ratio", values.map capital_ratio)
     ∧ (generate_text_special symbols values feature).get? 3
       = some (feature ++ ".lower_ratio", values.map lower_ratio)
     ∧ (generate_text_special symbols values feature).get? 4
       = some (feature ++ ".digit_ratio", values.map digit_ratio)
     ∧ (generate_text_special symbols values feature).get? 5
       = some (feature ++ ".special_ratio", values.map special_ratio))
    ∧ ((∀ s : String, capital_ratio s =
          (((s.data.filter (fun c => ! (c == ' '))).countP Char.isUpper : Nat) : ℚ) /
          (((s.data.filter (fun c => ! (c == ' '))).length : Nat) : ℚ))
     ∧ (∀ s : String, lower_ratio s =
          (((s.data.filter (fun c => ! (c == ' '))).countP Char.isLower : Nat) : ℚ) /
          (((s.data.filter (fun c => ! (c == ' '))).length : Nat) : ℚ))
     ∧ (∀ s : String, digit_ratio s =
          (((s.data.filter (fun c => ! (c == ' '))).countP Char.isDigit : Nat) : ℚ) /
          (((s.data.filter (fun c => ! (c == ' '))).length : Nat) : ℚ))
     ∧ (∀ s : String, special_ratio s =
          (((s.data.filter (fun c => ! (c == ' '))).countP
              (fun c => ! isWordChar c) : Nat) : ℚ) /
          (((s.data.filter (fun c => ! (c == ' '))).length : Nat) : ℚ)))
    ∧ (∀ (s : String) (symbol : Char),
        (if (char_count s : ℚ) = 0 then 0
         else (symbol_in_string_count s symbol : ℚ) / (char_count s : ℚ))
          = (symbol_in_string_count s symbol : ℚ) / (char_count s : ℚ))
    ∧ (char_count "AbC 123!" = 8 ∧ word_count "AbC 123!" = 2
       ∧ symbol_in_string_count "AbC 123!" '!' = 1
       ∧ capital_ratio "AbC 123!" = 2 / 7
       ∧ lower_ratio "AbC 123!" = 1 / 7
       ∧ digit_ratio "AbC 123!" = 3 / 7
       ∧ special_ratio "AbC 123!" = 1 / 7
       ∧ colLookup (generate_text_special ['!'] ["AbC 123!"] "A")
           "A.symbol_ratio.!" = [1 / 8]) := by
  refine ⟨⟨rfl, rfl, rfl, rfl⟩, ⟨?_, ?_, ?_, ?_⟩, ?_, by decide⟩
  · intro s
    exact nonspace_ratio_eq s Char.isUpper
  · intro s
    exact nonspace_ratio_eq s Char.isLower
  · intro s
    exact nonspace_ratio_eq s Char.isDigit
  · intro s
    exact nonspace_ratio_eq s (fun c => ! isWordChar c)
  · intro s symbol
    exact symbol_ratio_div_eq s symbol

/-- C9 counterexample: for "AbC 123!" the symbol ratio of '!' produced by
the generator is 1/8 (count over char_count, spaces included), not the
claimed 1/7. -/
theorem claim_C9_counterexample :
    colLookup (generate_text_special ['!'] ["AbC 123!"] "A") "A.symbol_ratio.!"
      = [1 / 8]
    ∧ ((1 : ℚ) / 8) ≠ 1 / 7 := ⟨by decide, by decide⟩

end Claims

end AutogluonText
